import Mathlib

/-!
Shallow embedding of `scvelo.plotting.velocity` (src/scvelo/plotting/velocity.py),
the panel-selection, layout-planning and multi-model overlay logic of the
`velocity` plotting entry point.  Machine reals (numpy float64) are modelled by
`ℚ`; Python exceptions by `Except PlotError`; the `AnnData` object by the
`Dataset` record of the keys and annotations the function reads.
-/

namespace Scvelo

/-- Python exceptions raised by the `velocity` code paths. -/
inductive PlotError where
  /-- `ValueError('No var_names or groups specified.')` at line 87. -/
  | noSource : PlotError
  /-- arithmetic failure of `int(10 / idx.sum())` at line 83 when `idx.sum() == 0`
  (numpy division by zero yields `inf`, `int(inf)` raises `OverflowError`,
  a subclass of `ArithmeticError`). -/
  | arithError : PlotError
  /-- `IndexError` from `stochastic_fits[0]` at line 141 on an empty list. -/
  | indexError : PlotError
  deriving DecidableEq

/-- The `var_names` argument: `None`, a single string, or a list of strings. -/
inductive VarNamesArg where
  | vnone : VarNamesArg
  | vstr (s : String) : VarNamesArg
  | vlist (l : List String) : VarNamesArg

/-- The `groups` argument: `None`, a single string, or a list of strings. -/
inductive GroupsArg where
  | gnone : GroupsArg
  | gstr (s : String) : GroupsArg
  | glist (l : List String) : GroupsArg

/-- Line 81: `groups = [groups] if isinstance(groups, str) else groups`;
`none` when no subset was requested. -/
def GroupsArg.toList? : GroupsArg → Option (List String)
  | .gnone => none
  | .gstr s => some [s]
  | .glist l => some l

/-- The `fits` argument: the sentinel string `'all'` or a list of fit names. -/
inductive FitsArg where
  | all : FitsArg
  | list (l : List String) : FitsArg

/-- The `layers` argument: the sentinel string `'all'` or a list of layer names. -/
inductive LayersArg where
  | all : LayersArg
  | list (l : List String) : LayersArg

/-- The slice of an `AnnData` object read by `velocity`.

`rank_names` is modelled from the spec: the ranking collaborator
`rank_velocity_genes` (src only imports it; its module is not under `src/`)
stores, per group of the grouping (in category order, aligned with
`categories`), an ordered candidate gene-name list
(`adata.uns['rank_velocity_genes']['names']`, ranked best first, `n_genes=10`
entries per group). -/
structure Dataset where
  /-- gene axis `adata.var_names` -/
  var_names : List String
  /-- `adata.obs.keys()` -/
  obs_keys : List String
  /-- `adata.layers.keys()` -/
  layers_keys : List String
  /-- `adata.var.keys()` (per-gene annotation column names) -/
  var_keys : List String
  /-- `adata.obs[groupby].cat.categories` -/
  categories : List String
  /-- Modelled from the spec: per-group ordered gene-name lists of
  `rank_velocity_genes`, one row per category, ranked best first. -/
  rank_names : List (List String)

/-- `needle` starts `hay` (character lists). -/
def charsStart : List Char → List Char → Bool
  | [], _ => true
  | _ :: _, [] => false
  | a :: as, b :: bs => a == b && charsStart as bs

/-- `needle` occurs contiguously inside `hay` (character lists). -/
def charsSub : List Char → List Char → Bool
  | n, [] => n.isEmpty
  | n, c :: rest => charsStart n (c :: rest) || charsSub n rest

/-- Python's substring test `g in group` for strings. -/
def strIn (needle hay : String) : Bool :=
  charsSub needle.toList hay.toList

/-- `pd.unique`: deduplicate keeping the first occurrence of each element,
preserving order. -/
def pd_unique {α : Type} [DecidableEq α] (l : List α) : List α :=
  go l []
where
  /-- traversal carrying the set of elements already emitted -/
  go : List α → List α → List α
  | [], _ => []
  | x :: xs, seen => if x ∈ seen then go xs seen else x :: go xs (x :: seen)

/-- Lines 84-87: the explicit branch of gene selection.  A single string is
wrapped into a singleton list unfiltered; a list is filtered to the genes
present in `adata.var_names`; `None` raises `ValueError`. -/
def explicitSel (ds : Dataset) : VarNamesArg → Except PlotError (List String)
  | .vnone => .error .noSource
  | .vstr s => .ok [s]
  | .vlist l => .ok (l.filter (fun v => v ∈ ds.var_names))

/-- Lines 74-87: gene selection before the final `pd.unique` of line 88.
Ranking mode applies when `groupby` is a string present in `adata.obs`;
with no `groups` subset it takes column 0 of the ranking matrix
(`names[:, 0]`: the top-ranked gene of every group), otherwise it builds the
boolean mask `idx` of categories matched by some requested token (substring
containment), computes `k = int(10 / idx.sum())` — an arithmetic error when no
category matches — and concatenates the top `k` genes of each masked row
(`np.hstack(names[idx, :k])`). -/
def selectGenesPre (ds : Dataset) (varNamesArg : VarNamesArg)
    (groupby : Option String) (groupsArg : GroupsArg) :
    Except PlotError (List String) :=
  match groupby with
  | some gb =>
    if gb ∈ ds.obs_keys then
      match groupsArg.toList? with
      | none => .ok (ds.rank_names.map (fun row => row.headD ""))
      | some gs =>
        let idx := ds.categories.map (fun cat => gs.any (fun g => strIn g cat))
        let m := idx.count true
        if m = 0 then .error .arithError
        else
          .ok ((((ds.rank_names.zip idx).filter (fun p => p.2)).map
            (fun p => p.1.take (10 / m))).flatten)
    else explicitSel ds varNamesArg
  | none => explicitSel ds varNamesArg

/-- Lines 74-88: gene selection including the final stable deduplication
`var_names = pd.unique(var_names)`. -/
def selectGenes (ds : Dataset) (varNamesArg : VarNamesArg)
    (groupby : Option String) (groupsArg : GroupsArg) :
    Except PlotError (List String) :=
  (selectGenesPre ds varNamesArg groupby groupsArg).map pd_unique

/-- Line 90: the phase-portrait layer pair — raw `('spliced', 'unspliced')`
when `use_raw` or no smoothed `'Ms'` layer exists, else `('Ms', 'Mu')`. -/
def resolveSkeyUkey (ds : Dataset) (use_raw : Bool) : String × String :=
  if use_raw || !("Ms" ∈ ds.layers_keys : Bool) then ("spliced", "unspliced")
  else ("Ms", "Mu")

/-- Lines 91-92: extra layers — default `[vkey, skey]` for `'all'`, then
filtered to layer names present in the dataset or the sentinel `'X'`. -/
def resolveLayers (ds : Dataset) (vkey : String) (layersArg : LayersArg)
    (skey : String) : List String :=
  (match layersArg with
    | .all => [vkey, skey]
    | .list l => l).filter
    (fun layer => layer ∈ ds.layers_keys || layer == "X")

/-- Lines 94-95: fit-name resolution — `'all'` means all layer names; keep the
fits that are the literal `'dynamics'` or have a `<fit>_gamma` column; always
append `'dynamics'`. -/
def resolveFits (ds : Dataset) (fitsArg : FitsArg) : List String :=
  ((match fitsArg with
    | .all => ds.layers_keys
    | .list l => l).filter
    (fun fit => fit == "dynamics" || (fit ++ "_gamma") ∈ ds.var_keys))
    ++ ["dynamics"]

/-- Line 96: the stochastic-capable fits — those with a `variance_<fit>` layer. -/
def stochasticFits (ds : Dataset) (fits : List String) : List String :=
  fits.filter (fun fit => ("variance_" ++ fit) ∈ ds.layers_keys)

/-- Line 98: `nplts = 1 + len(layers) + (mode == 'stochastic') * 2`. -/
def nplts (nlayers : ℕ) (stochastic : Bool) : ℕ :=
  1 + nlayers + (if stochastic then 2 else 0)

/-- Line 100: `nrows = int(np.ceil(len(var_names) / ncols))` (exact over ℚ). -/
def nrowsGrid (ngenes ncols : ℕ) : ℕ :=
  ⌈(ngenes : ℚ) / (ncols : ℚ)⌉₊

/-- Line 101: `ncols = int(ncols * nplts)` — the total grid column count. -/
def totalColumns (ncols nlayers : ℕ) (stochastic : Bool) : ℕ :=
  ncols * nplts nlayers stochastic

/-- Line 116: the flattened grid position of gene `v`'s phase portrait,
`gs[v * nplts]`. -/
def phasePanelPos (v nlayers : ℕ) (stochastic : Bool) : ℕ :=
  v * nplts nlayers stochastic

/-- Line 128: the flattened grid position of gene `v`'s panel for the `l`-th
extra layer, `gs[v * nplts + l + 1]`. -/
def layerPanelPos (v nlayers : ℕ) (stochastic : Bool) (l : ℕ) : ℕ :=
  v * nplts nlayers stochastic + l + 1

/-- Line 143: the flattened grid position of gene `v`'s stochastic panel,
`gs[v * nplts + len(layers) + 1]`. -/
def stochPanelPos (v nlayers : ℕ) (stochastic : Bool) : ℕ :=
  v * nplts nlayers stochastic + nlayers + 1

/-- The flattened grid positions addressed for gene `v`, in rendering order:
phase portrait, one panel per extra layer, and (in stochastic mode) the
stochastic panel. -/
def genePanelPositions (v nlayers : ℕ) (stochastic : Bool) : List ℕ :=
  phasePanelPos v nlayers stochastic ::
    ((List.range nlayers).map (layerPanelPos v nlayers stochastic) ++
      (if stochastic then [stochPanelPos v nlayers stochastic] else []))

/-- The per-gene data `velocity` reads: the flattened per-cell layer values
`s`, `u` (lines 112, 140), the flattened second-order moments `ss`, `us`
returned by the external `second_order_moments` collaborator (line 139), and
the gene's per-column value in `adata.var` (read only at columns present in
`Dataset.var_keys`). -/
structure GeneData where
  s : List ℚ
  u : List ℚ
  ss : List ℚ
  us : List ℚ
  pval : String → ℚ

/-- The guarded parameter read
`_adata.var[key] if key in adata.var.keys() else fallback`
(lines 144-145, 155-157). -/
def fitParam (ds : Dataset) (g : GeneData) (key : String) (fallback : ℚ) : ℚ :=
  if key ∈ ds.var_keys then g.pval key else fallback

/-- Line 144: `offset` of a fit, fallback `0`. -/
def fitOffset (ds : Dataset) (g : GeneData) (fit : String) : ℚ :=
  fitParam ds g (fit ++ "_offset") 0

/-- Lines 145 and 156: `beta` of a fit, fallback `1`. -/
def fitBeta (ds : Dataset) (g : GeneData) (fit : String) : ℚ :=
  fitParam ds g (fit ++ "_beta") 1

/-- Line 155: `gamma` of a fit, fallback `1`. -/
def fitGamma (ds : Dataset) (g : GeneData) (fit : String) : ℚ :=
  fitParam ds g (fit ++ "_gamma") 1

/-- Line 157: `offset2` of a fit, fallback `0`. -/
def fitOffset2 (ds : Dataset) (g : GeneData) (fit : String) : ℚ :=
  fitParam ds g (fit ++ "_offset2") 0

/-- Line 146: the corrected x coordinate `2 * (ss - s**2) - s` of one cell. -/
def corrX (s ss : ℚ) : ℚ := 2 * (ss - s ^ 2) - s

/-- Line 147: the corrected y coordinate
`2 * (us - u * s) + u + 2 * s * offset / beta` of one cell. -/
def corrY (s u us offset beta : ℚ) : ℚ :=
  2 * (us - u * s) + u + 2 * s * offset / beta

/-- One overlay line drawn by `pl.plot(xnew, gamma / beta * xnew + offset2 /
beta, c='k', linestyle='--')` (line 159). -/
structure FitLine where
  slope : ℚ
  intercept : ℚ
  dashed : Bool
  deriving DecidableEq

/-- `np.min` over the embedded vector (total; the code only calls it on
nonempty per-cell vectors). -/
def listMin : List ℚ → ℚ
  | [] => 0
  | x :: xs => xs.foldl min x

/-- `np.max` over the embedded vector. -/
def listMax : List ℚ → ℚ
  | [] => 0
  | x :: xs => xs.foldl max x

/-- The content of one gene's stochastic panel: the corrected scatter
coordinates, the endpoints of the sampling range
`xnew = np.linspace(np.min(x), np.max(x) * 1.02)` (line 153) and the overlay
lines drawn over it. -/
structure StochPanel where
  xs : List ℚ
  ys : List ℚ
  xlo : ℚ
  xhi : ℚ
  lines : List FitLine
  deriving DecidableEq

/-- Lines 138-159: the stochastic branch for one gene.  `stochastic_fits[0]`
raises `IndexError` on an empty list; otherwise the first stochastic-capable
fit's `offset` and `beta` enter the corrected coordinates, and one dashed line
per stochastic-capable fit is drawn with that fit's `gamma / beta` slope and
`offset2 / beta` intercept over `[np.min(x), np.max(x) * 1.02]`. -/
def renderStochastic (ds : Dataset) (g : GeneData) (sfits : List String) :
    Except PlotError StochPanel :=
  match sfits with
  | [] => .error .indexError
  | fit0 :: _ =>
    let offset := fitOffset ds g fit0
    let beta := fitBeta ds g fit0
    let xs := (g.s.zip g.ss).map (fun p => corrX p.1 p.2)
    let ys := ((g.s.zip g.u).zip g.us).map
      (fun p => corrY p.1.1 p.1.2 p.2 offset beta)
    .ok
      { xs := xs
        ys := ys
        xlo := listMin xs
        xhi := listMax xs * (51 / 50)
        lines := sfits.map (fun fit =>
          { slope := fitGamma ds g fit / fitBeta ds g fit
            intercept := fitOffset2 ds g fit / fitBeta ds g fit
            dashed := true }) }

/-- The observable outcome of one `velocity` call: the selected genes, the
grid geometry, the flattened panel positions addressed gene-major, and the
stochastic panels (empty list outside stochastic mode). -/
structure VelocityOutput where
  genes : List String
  n_rows : ℕ
  n_cols : ℕ
  panels : List ℕ
  stoch_panels : List StochPanel

/-- The `velocity` entry point, in source order: gene selection (lines 74-88),
layer and fit resolution (lines 90-96), grid geometry (lines 98-101), then the
per-gene loop (lines 110-159) whose stochastic branch can fail.  Any raised
error aborts the call with no output. -/
def velocity (ds : Dataset) (varNamesArg : VarNamesArg)
    (groupby : Option String) (groupsArg : GroupsArg) (vkey : String)
    (fitsArg : FitsArg) (layersArg : LayersArg) (use_raw : Bool)
    (stochastic : Bool) (geneData : String → GeneData) (ncolsArg : Option ℕ) :
    Except PlotError VelocityOutput := do
  let var_names ← selectGenes ds varNamesArg groupby groupsArg
  let (skey, _) := resolveSkeyUkey ds use_raw
  let layers := resolveLayers ds vkey layersArg skey
  let fits := resolveFits ds fitsArg
  let sfits := stochasticFits ds fits
  let ncols := ncolsArg.getD 1
  let stochPanels ←
    if stochastic then
      var_names.mapM (fun v => renderStochastic ds (geneData v) sfits)
    else pure []
  .ok
    { genes := var_names
      n_rows := nrowsGrid var_names.length ncols
      n_cols := totalColumns ncols layers.length stochastic
      panels := ((List.range var_names.length).map
        (fun v => genePanelPositions v layers.length stochastic)).flatten
      stoch_panels := stochPanels }

/-- The ranking rows of the categories matched by some requested token
(Python's substring containment `g in group`), in category order. -/
def matchingRows (ds : Dataset) (gs : List String) : List (List String) :=
  ((ds.categories.zip ds.rank_names).filter
    (fun p => gs.any (fun g => strIn g p.1))).map (fun p => p.2)

/-- The layout facts of claim C2 for a gene at index `v`: the panel count per
gene, the grid geometry, and the flattened positions of the gene's panels. -/
def LayoutClaim (L : List String) (stochastic : Bool) (geneCount c v : ℕ) :
    Prop :=
  nplts L.length stochastic = 1 + L.length + (if stochastic then 2 else 0) ∧
  totalColumns c L.length stochastic = c * nplts L.length stochastic ∧
  nrowsGrid geneCount c = (geneCount + c - 1) / c ∧
  (∀ p ∈ genePanelPositions v L.length stochastic,
    v * nplts L.length stochastic ≤ p ∧
      p < v * nplts L.length stochastic + nplts L.length stochastic) ∧
  phasePanelPos v L.length stochastic = v * nplts L.length stochastic + 0 ∧
  (∀ l < L.length,
    layerPanelPos v L.length stochastic l =
      v * nplts L.length stochastic + (l + 1)) ∧
  (stochastic = true →
    stochPanelPos v L.length stochastic =
      v * nplts L.length stochastic + (L.length + 1))

/-- A dataset whose gene axis is `A, B, C` and which holds nothing else. -/
def dsABC : Dataset := ⟨["A", "B", "C"], [], [], [], [], []⟩

/-- The empty dataset. -/
def dsEmpty : Dataset := ⟨[], [], [], [], [], []⟩

/-- A dataset with one gene, the default layers and no variance layer. -/
def dsStoch : Dataset :=
  ⟨["A"], [], ["velocity", "spliced", "unspliced"], [], [], []⟩

/-- A dataset with a `clusters` grouping of two categories and a ranking. -/
def dsGroups : Dataset :=
  ⟨["x", "y"], ["clusters"], [], [], ["g1", "g2"], [["x"], ["y"]]⟩

/-- Gene data with single-cell unit layers and all-zero annotations. -/
def gd0 : GeneData := ⟨[1], [1], [1], [1], fun _ => 0⟩

section Helpers

/-- Filtering by a predicate that holds at `a` preserves the count of `a`. -/
theorem count_filter_of_true {p : String → Bool} {a : String}
    (h : p a = true) (l : List String) : (l.filter p).count a = l.count a := by
  induction l with
  | nil => rfl
  | cons x xs ih =>
    by_cases hx : x = a
    · subst hx
      simp [List.filter_cons, h, List.count_cons, ih]
    · by_cases hp : p x = true
      · simp [List.filter_cons, hp, List.count_cons, ih, hx]
      · simp [List.filter_cons, hp, List.count_cons, ih, hx]

/-- Selecting the rows of `b` by the boolean mask `a.map p` equals filtering
the zipped rows by `p` on the first component. -/
theorem mask_rows_eq_filter {α β : Type} (p : α → Bool) :
    ∀ (a : List α) (b : List β), a.length = b.length →
      ((b.zip (a.map p)).filter (fun q => q.2)).map (fun q => q.1) =
        ((a.zip b).filter (fun q => p q.1)).map (fun q => q.2) := by
  intro a
  induction a with
  | nil =>
    intro b hb
    cases b with
    | nil => rfl
    | cons y ys => simp at hb
  | cons x xs ih =>
    intro b hb
    cases b with
    | nil => simp at hb
    | cons y ys =>
      have hlen : xs.length = ys.length := by simpa using hb
      by_cases hp : p x = true
      · simp [List.zip_cons_cons, List.filter_cons, hp, ih ys hlen]
      · simp [List.zip_cons_cons, List.filter_cons, hp, ih ys hlen]

/-- The number of `true` entries of the mask `a.map p` equals the length of
the rows kept by the corresponding filter of the zipped rows. -/
theorem mask_count_eq_filter_length {α β : Type} (p : α → Bool) :
    ∀ (a : List α) (b : List β), a.length = b.length →
      (a.map p).count true = ((a.zip b).filter (fun q => p q.1)).length := by
  intro a
  induction a with
  | nil =>
    intro b hb
    rfl
  | cons x xs ih =>
    intro b hb
    cases b with
    | nil => simp at hb
    | cons y ys =>
      have hlen : xs.length = ys.length := by simpa using hb
      by_cases hp : p x = true
      · simp [List.zip_cons_cons, List.filter_cons, hp, List.count_cons,
          ih ys hlen]
      · simp [List.zip_cons_cons, List.filter_cons, hp, List.count_cons,
          ih ys hlen]

/-- `int(np.ceil(g / c))` agrees with the integer formula `(g + c - 1) / c`. -/
theorem nrowsGrid_eq (g c : ℕ) (hc : 1 ≤ c) :
    nrowsGrid g c = (g + c - 1) / c := by
  have hc0 : 0 < c := hc
  have hcq : (0 : ℚ) < (c : ℚ) := by exact_mod_cast hc0
  cases g with
  | zero =>
    have hL : nrowsGrid 0 c = 0 := by
      unfold nrowsGrid
      simp
    rw [hL]
    symm
    apply Nat.div_eq_of_lt
    omega
  | succ n =>
    have hR : (n + 1 + c - 1) / c = n / c + 1 := by
      have he : n + 1 + c - 1 = n + c := by omega
      rw [he, Nat.add_div_right _ hc0]
    rw [hR]
    unfold nrowsGrid
    rw [Nat.ceil_eq_iff (Nat.succ_ne_zero _)]
    constructor
    · rw [Nat.succ_sub_one, lt_div_iff₀ hcq]
      exact_mod_cast Nat.lt_succ_of_le (Nat.div_mul_le_self n c)
    · have key : n + 1 ≤ (n / c + 1) * c := by
        have h1 : c * (n / c) + n % c = n := Nat.div_add_mod n c
        have h2 : n % c < c := Nat.mod_lt _ hc0
        calc n + 1 = c * (n / c) + n % c + 1 := by rw [h1]
          _ ≤ c * (n / c) + c := by omega
          _ = (n / c + 1) * c := by ring
      rw [div_le_iff₀ hcq]
      exact_mod_cast key

end Helpers

/-- C3 (counterexample): with caller input `['dynamics']` and no `_gamma`
columns, the resolved fit list is `['dynamics', 'dynamics']` — the name
`'dynamics'` does not occur exactly once. -/
theorem C3_counterexample :
    resolveFits dsEmpty (.list ["dynamics"]) = ["dynamics", "dynamics"] ∧
    (["dynamics", "dynamics"] : List String).count "dynamics" ≠ 1 := by
  exact ⟨rfl, by decide⟩

/-- C3 (amended): the resolved fit-name list always contains `'dynamics'`
(it is unconditionally appended), and its number of occurrences is one more
than in the caller-supplied list — so it occurs exactly once iff the caller
list does not itself contain `'dynamics'`. -/
theorem C3_dynamics_count (ds : Dataset) (l : List String) :
    (resolveFits ds (.list l)).count "dynamics" = l.count "dynamics" + 1 := by
  unfold resolveFits
  rw [List.count_append]
  have h : (fun fit => fit == "dynamics" ||
      decide ((fit ++ "_gamma") ∈ ds.var_keys)) "dynamics" = true := by
    simp
  rw [count_filter_of_true h]
  simp

/-- C4 (counterexample): in stochastic mode with no stochastic-capable fit
(`stochastic_fits = []`), the call does not complete: `stochastic_fits[0]`
raises `IndexError`. -/
theorem C4_counterexample :
    stochasticFits dsStoch (resolveFits dsStoch (.list [])) = [] ∧
    velocity dsStoch (.vstr "A") none .gnone "velocity" (.list []) .all false
      true (fun _ => gd0) none = .error .indexError := by
  exact ⟨rfl, rfl⟩

/-- C4 (amended): in stochastic mode, when no stochastic-capable fit exists
the layout still allocates the two stochastic panels (the panel count per
gene is `1 + |layers| + 2`, independent of the fit list), but the per-gene
stochastic branch fails with an index error at `stochastic_fits[0]`, so the
call aborts instead of completing with empty stochastic panels. -/
theorem C4_no_capable_fit (ds : Dataset) (g : GeneData) (n : ℕ) :
    renderStochastic ds g [] = .error .indexError ∧
    nplts n true = 1 + n + 2 := by
  exact ⟨rfl, rfl⟩

/-- C5: in stochastic mode the corrected coordinates of every cell are
`x = 2 * (ss - s²) - s` and `y = 2 * (us - u * s) + u + 2 * s * offset / beta`
with `offset`, `beta` the first stochastic-capable fit's parameters (fallbacks
`0` and `1` when the column is absent); and at
`s = u = ss = us = 1, offset = 0, beta = 1` they evaluate to `x = -1`,
`y = 1`. -/
theorem C5_corrected_coords (ds : Dataset) (g : GeneData) (fit0 : String)
    (rest : List String) :
    (renderStochastic ds g (fit0 :: rest)).map StochPanel.xs =
      .ok ((g.s.zip g.ss).map (fun p => 2 * (p.2 - p.1 ^ 2) - p.1)) ∧
    (renderStochastic ds g (fit0 :: rest)).map StochPanel.ys =
      .ok (((g.s.zip g.u).zip g.us).map (fun p =>
        2 * (p.2 - p.1.2 * p.1.1) + p.1.2 +
          2 * p.1.1 * fitOffset ds g fit0 / fitBeta ds g fit0)) ∧
    corrX 1 1 = -1 ∧ corrY 1 1 1 0 1 = 1 := by
  refine ⟨rfl, rfl, by norm_num [corrX], by norm_num [corrY]⟩

/-- C7: in stochastic mode one dashed line is drawn per stochastic-capable
fit (not only the first), with slope `gamma / beta` and intercept
`offset2 / beta` from that fit's parameters (fallbacks `1`, `1`, `0`), all in
the gene's single stochastic panel, sampled over
`[min(x), 1.02 * max(x)]` of the corrected x coordinates. -/
theorem C7_overlay_lines (ds : Dataset) (g : GeneData) (fit0 : String)
    (rest : List String) :
    (renderStochastic ds g (fit0 :: rest)).map StochPanel.lines =
      .ok ((fit0 :: rest).map (fun fit =>
        { slope := fitGamma ds g fit / fitBeta ds g fit
          intercept := fitOffset2 ds g fit / fitBeta ds g fit
          dashed := true })) ∧
    (renderStochastic ds g (fit0 :: rest)).map
        (fun panel => panel.lines.length) = .ok (fit0 :: rest).length ∧
    (renderStochastic ds g (fit0 :: rest)).map
        (fun panel => (panel.xlo, panel.xhi)) =
      .ok (listMin ((g.s.zip g.ss).map (fun p => corrX p.1 p.2)),
        51 / 50 * listMax ((g.s.zip g.ss).map (fun p => corrX p.1 p.2))) := by
  refine ⟨rfl, ?_, ?_⟩
  · simp [renderStochastic, Except.map]
  · simp [renderStochastic, Except.map, mul_comm]

/-- C8: an absent per-gene fit parameter is substituted by its fixed
fallback — `offset` by `0`, `beta` by `1`, `gamma` by `1`, `offset2` by `0` —
and the guarded reads are total, so a missing parameter never errors. -/
theorem C8_param_fallbacks (ds : Dataset) (g : GeneData) (fit : String)
    (h1 : (fit ++ "_offset") ∉ ds.var_keys)
    (h2 : (fit ++ "_beta") ∉ ds.var_keys)
    (h3 : (fit ++ "_gamma") ∉ ds.var_keys)
    (h4 : (fit ++ "_offset2") ∉ ds.var_keys) :
    fitOffset ds g fit = 0 ∧ fitBeta ds g fit = 1 ∧
    fitGamma ds g fit = 1 ∧ fitOffset2 ds g fit = 0 := by
  refine ⟨?_, ?_, ?_, ?_⟩ <;>
    simp [fitOffset, fitBeta, fitGamma, fitOffset2, fitParam, h1, h2, h3, h4]

/-- C8 witness: the fallbacks at the concrete fit name `velocity` on a
dataset with no annotation columns. -/
theorem C8_witness :
    (("velocity" ++ "_offset") ∉ dsEmpty.var_keys ∧
     ("velocity" ++ "_beta") ∉ dsEmpty.var_keys ∧
     ("velocity" ++ "_gamma") ∉ dsEmpty.var_keys ∧
     ("velocity" ++ "_offset2") ∉ dsEmpty.var_keys) ∧
    (fitOffset dsEmpty gd0 "velocity" = 0 ∧ fitBeta dsEmpty gd0 "velocity" = 1 ∧
     fitGamma dsEmpty gd0 "velocity" = 1 ∧
     fitOffset2 dsEmpty gd0 "velocity" = 0) :=
  ⟨⟨by decide, by decide, by decide, by decide⟩,
    C8_param_fallbacks dsEmpty gd0 "velocity" (by decide) (by decide)
      (by decide) (by decide)⟩

/-- C1 (counterexample): with dataset genes `{A, B, C}` and the single string
input `'D'`, the selection is `['D']` — the string is wrapped unfiltered —
while the claim's filter-then-deduplicate formula yields `[]`. -/
theorem C1_counterexample :
    selectGenes dsABC (.vstr "D") none .gnone = .ok ["D"] ∧
    pd_unique (["D"].filter (fun v => v ∈ dsABC.var_names)) = ([] : List String) ∧
    (["D"] : List String) ≠ [] := by
  exact ⟨rfl, rfl, by decide⟩

/-- C1 (amended): when ranking mode does not apply, an explicit *list* input
selects exactly the input filtered to dataset-present genes and deduplicated
preserving first-occurrence order; a *single string* input selects the
singleton of that string without any presence filtering. -/
theorem C1_explicit_selection (ds : Dataset) (groupby : Option String)
    (hgb : ∀ gb, groupby = some gb → gb ∉ ds.obs_keys) (groupsArg : GroupsArg)
    (l : List String) (s : String) :
    selectGenes ds (.vlist l) groupby groupsArg =
      .ok (pd_unique (l.filter (fun v => v ∈ ds.var_names))) ∧
    selectGenes ds (.vstr s) groupby groupsArg = .ok [s] := by
  have hexp : ∀ va, selectGenesPre ds va groupby groupsArg = explicitSel ds va := by
    intro va
    unfold selectGenesPre
    cases groupby with
    | none => rfl
    | some gb => simp [hgb gb rfl]
  refine ⟨?_, ?_⟩
  · unfold selectGenes
    rw [hexp]
    rfl
  · unfold selectGenes
    rw [hexp]
    rfl

/-- C1 witness: the amended selection at the claim's own example,
genes `{A, B, C}`, list input `[B, B, D, A]` and string input `B`. -/
theorem C1_witness :
    (∀ gb, (none : Option String) = some gb → gb ∉ dsABC.obs_keys) ∧
    (selectGenes dsABC (.vlist ["B", "B", "D", "A"]) none .gnone =
      .ok (pd_unique (["B", "B", "D", "A"].filter
        (fun v => v ∈ dsABC.var_names))) ∧
     selectGenes dsABC (.vstr "B") none .gnone = .ok ["B"]) :=
  ⟨fun _ h => Option.noConfusion h,
    C1_explicit_selection dsABC none (fun _ h => Option.noConfusion h) .gnone
      ["B", "B", "D", "A"] "B"⟩

/-- C9: when `var_names` is `None` and `groupby` is not a string present in
the per-cell annotation keys, the call fails with the configuration error
(`ValueError('No var_names or groups specified.')`) raised during gene
selection, before any grid geometry or panel is produced — the whole call
returns the error and no output. -/
theorem C9_no_source (ds : Dataset) (groupby : Option String)
    (hgb : ∀ gb, groupby = some gb → gb ∉ ds.obs_keys) (groupsArg : GroupsArg)
    (vkey : String) (fitsArg : FitsArg) (layersArg : LayersArg)
    (use_raw stochastic : Bool) (geneData : String → GeneData)
    (ncolsArg : Option ℕ) :
    velocity ds .vnone groupby groupsArg vkey fitsArg layersArg use_raw
      stochastic geneData ncolsArg = .error .noSource := by
  have hsel : selectGenes ds .vnone groupby groupsArg = .error .noSource := by
    unfold selectGenes selectGenesPre
    cases groupby with
    | none => rfl
    | some gb => simp [hgb gb rfl, explicitSel, Except.map]
  unfold velocity
  rw [hsel]
  rfl

/-- C9 witness: the failing call on a concrete dataset with no `groupby`. -/
theorem C9_witness :
    (∀ gb, (none : Option String) = some gb → gb ∉ dsABC.obs_keys) ∧
    velocity dsABC .vnone none .gnone "velocity" .all .all false false
      (fun _ => gd0) none = .error .noSource :=
  ⟨fun _ h => Option.noConfusion h,
    C9_no_source dsABC none (fun _ h => Option.noConfusion h) .gnone "velocity"
      .all .all false false (fun _ => gd0) none⟩

/-- C10: in ranking mode with a requested subset that matches no category
(the boolean mask has zero `true` entries), gene selection fails with the
arithmetic error of `int(10 / idx.sum())` at zero divisor, aborting the call
before any grid geometry or panel is produced, instead of degrading to an
empty selection. -/
theorem C10_zero_matches (ds : Dataset) (varNamesArg : VarNamesArg)
    (gb : String) (hgb : gb ∈ ds.obs_keys) (gs : List String)
    (hz : (ds.categories.map
      (fun cat => gs.any (fun g => strIn g cat))).count true = 0)
    (vkey : String) (fitsArg : FitsArg) (layersArg : LayersArg)
    (use_raw stochastic : Bool) (geneData : String → GeneData)
    (ncolsArg : Option ℕ) :
    velocity ds varNamesArg (some gb) (.glist gs) vkey fitsArg layersArg
      use_raw stochastic geneData ncolsArg = .error .arithError := by
  have hsel : selectGenesPre ds varNamesArg (some gb) (.glist gs) =
      .error .arithError := by
    unfold selectGenesPre
    simp [hgb, GroupsArg.toList?, hz]
  unfold velocity selectGenes
  rw [hsel]
  rfl

/-- C10 witness: the failing call with grouping `clusters`, categories
`g1, g2` and the unmatched subset token `zzz`. -/
theorem C10_witness :
    ("clusters" ∈ dsGroups.obs_keys ∧
     (dsGroups.categories.map
       (fun cat => (["zzz"] : List String).any (fun g => strIn g cat))).count
         true = 0) ∧
    velocity dsGroups .vnone (some "clusters") (.glist ["zzz"]) "velocity"
      .all .all false false (fun _ => gd0) none = .error .arithError :=
  ⟨⟨by decide, by decide⟩,
    C10_zero_matches dsGroups .vnone "clusters" (by decide) ["zzz"] (by decide)
      "velocity" .all .all false false (fun _ => gd0) none⟩

/-- C6: in ranking mode, with no subset requested the selection (before the
final deduplication) is the top-ranked gene of every group in group order;
with a subset matching `m ≥ 1` groups (substring match of some requested
token against the group label) it is the concatenation, in group order, of
the top `⌊10 / m⌋` genes of each matching group. -/
theorem C6_group_ranking (ds : Dataset) (varNamesArg : VarNamesArg)
    (gb : String) (hgb : gb ∈ ds.obs_keys)
    (hlen : ds.categories.length = ds.rank_names.length) (gs : List String)
    (hm : 1 ≤ (matchingRows ds gs).length) :
    selectGenesPre ds varNamesArg (some gb) .gnone =
      .ok (ds.rank_names.map (fun row => row.headD "")) ∧
    selectGenesPre ds varNamesArg (some gb) (.glist gs) =
      .ok (((matchingRows ds gs).map
        (fun row => row.take (10 / (matchingRows ds gs).length))).flatten) := by
  constructor
  · simp only [selectGenesPre]
    rw [if_pos hgb]
    rfl
  · have hcount :
        (ds.categories.map
          (fun cat => gs.any (fun g => strIn g cat))).count true =
          (matchingRows ds gs).length := by
      rw [mask_count_eq_filter_length _ ds.categories ds.rank_names hlen]
      unfold matchingRows
      rw [List.length_map]
    have hrows :
        ((ds.rank_names.zip (ds.categories.map
            (fun cat => gs.any (fun g => strIn g cat)))).filter
          (fun p => p.2)).map (fun p => p.1) = matchingRows ds gs :=
      mask_rows_eq_filter _ ds.categories ds.rank_names hlen
    have hm0 :
        ¬ (ds.categories.map
          (fun cat => gs.any (fun g => strIn g cat))).count true = 0 := by
      rw [hcount]
      omega
    simp only [selectGenesPre]
    rw [if_pos hgb]
    simp only [GroupsArg.toList?]
    rw [if_neg hm0, hcount]
    have hmm := congrArg
      (List.map (fun row : List String =>
        row.take (10 / (matchingRows ds gs).length))) hrows
    rw [List.map_map] at hmm
    exact congrArg (fun t => Except.ok t.flatten) hmm

/-- C6 witness: grouping `clusters` with categories `g1, g2`, ranking rows
`[x]` and `[y]`; no subset selects the two group leaders, and the subset
token `g` matches both groups, each contributing its top `⌊10 / 2⌋` genes. -/
theorem C6_witness :
    ("clusters" ∈ dsGroups.obs_keys ∧
     dsGroups.categories.length = dsGroups.rank_names.length ∧
     1 ≤ (matchingRows dsGroups ["g"]).length) ∧
    (selectGenesPre dsGroups .vnone (some "clusters") .gnone =
      .ok (dsGroups.rank_names.map (fun row => row.headD "")) ∧
     selectGenesPre dsGroups .vnone (some "clusters") (.glist ["g"]) =
      .ok (((matchingRows dsGroups ["g"]).map
        (fun row => row.take
          (10 / (matchingRows dsGroups ["g"]).length))).flatten)) :=
  ⟨⟨by decide, by decide, by decide⟩,
    C6_group_ranking dsGroups .vnone "clusters" (by decide) (by decide) ["g"]
      (by decide)⟩

/-- C2: for every gene count `g ≥ 1`, extra-layer list `L`, stochastic flag
and column multiplier `c ≥ 1`, the panel count per gene is
`1 + |L| + (2 if stochastic else 0)`, the grid has `c * panels_per_gene`
columns and `⌈g / c⌉` rows, and the panels of the gene at index `v` lie in
the flattened positions `[v * panels_per_gene, (v + 1) * panels_per_gene)`:
the phase portrait at offset `0`, the `l`-th extra layer at offset `l + 1`,
and the stochastic panel after all layer panels at offset `|L| + 1`. -/
theorem C2_layout (geneCount : ℕ) (L : List String) (stochastic : Bool)
    (c v : ℕ) (_hg : 1 ≤ geneCount) (hc : 1 ≤ c) (_hv : v < geneCount) :
    LayoutClaim L stochastic geneCount c v := by
  unfold LayoutClaim
  refine ⟨rfl, rfl, nrowsGrid_eq _ _ hc, ?_, rfl, fun l _ => rfl, fun _ => rfl⟩
  intro p hp
  have key : ∀ off np, off < np →
      v * np ≤ v * np + off ∧ v * np + off < v * np + np :=
    fun off np h => ⟨Nat.le_add_right _ _, Nat.add_lt_add_left h _⟩
  simp only [genePanelPositions, phasePanelPos, layerPanelPos, stochPanelPos,
    List.mem_cons, List.mem_append, List.mem_map, List.mem_range] at hp
  rcases hp with rfl | ⟨l, hl, rfl⟩ | hp
  · have hnp0 : 0 < nplts L.length stochastic := by
      cases stochastic
      · show 0 < 1 + L.length + 0
        omega
      · show 0 < 1 + L.length + 2
        omega
    exact key 0 _ hnp0
  · have hoff : l + 1 < nplts L.length stochastic := by
      cases stochastic
      · show l + 1 < 1 + L.length + 0
        omega
      · show l + 1 < 1 + L.length + 2
        omega
    exact key (l + 1) _ hoff
  · cases stochastic with
    | false => simp at hp
    | true =>
      simp only [List.mem_ite_nil_right, List.mem_singleton] at hp
      rcases hp with ⟨-, rfl⟩
      have hoff : L.length + 1 < nplts L.length true := by
        show L.length + 1 < 1 + L.length + 2
        omega
      exact key (L.length + 1) _ hoff

/-- C2 witness: three genes, two extra layers, stochastic mode, two columns,
gene index `1`. -/
theorem C2_witness :
    (1 ≤ 3 ∧ 1 ≤ 2 ∧ 1 < 3) ∧ LayoutClaim ["velocity", "Ms"] true 3 2 1 :=
  ⟨⟨by decide, by decide, by decide⟩,
    C2_layout 3 ["velocity", "Ms"] true 2 1 (by decide) (by decide) (by decide)⟩

end Scvelo
